import Mathlib

/-!
Shallow embedding of `ampel/contrib/hu/t0/DecentFilter.py` (class `DecentFilter`).

Modelling choices:
* All numeric alert fields and thresholds are rationals (`ℚ`); the decision logic
  only compares, adds, multiplies and divides, so `ℚ` is closed under everything
  the code does.
* A photopoint is a Python dict; a field can be missing, can be `None`, or can
  hold a value.  `FieldVal` captures the three states.  Accessing a missing key
  raises `KeyError`; comparing `None` with a number raises `TypeError`.
* External collaborators (astropy coordinate math, `numpy.exp`, the catsHTM
  cone-search service) are modelled as an `Env` record of opaque functions; the
  filter only pipes their outputs into comparisons.
* Logging is modelled as a no-op.  The accept-path debug log reads
  `latest['candid']`, which is a real dict access; it is kept in the model.
-/

deriving instance DecidableEq for Except

namespace DecentFilter

/-- Python exceptions that the decision path can raise. -/
inductive PyErr where
  | keyError (k : String)
  | typeError
  | valueError
deriving DecidableEq

/-- State of one dict entry of a photopoint: the key can be missing from the
dict, can map to `None`, or can map to a value. -/
inductive FieldVal (α : Type) where
  | absent
  | null
  | val (v : α)
deriving DecidableEq

/-- Dict access followed by use of the value in a numeric context:
missing key raises `KeyError`, a `None` value used in a comparison raises
`TypeError`. -/
def FieldVal.get {α : Type} : FieldVal α → String → Except PyErr α
  | .absent, k => .error (.keyError k)
  | .null, _ => .error .typeError
  | .val v, _ => .ok v

/-- `key in dict and dict[key] is not None`. -/
def FieldVal.present {α : Type} : FieldVal α → Bool
  | .val _ => true
  | _ => false

/-- The latest photopoint of a ZTF alert, restricted to the fields the filter
reads.  `jd` is always present on a photopoint; the other entries carry their
dict-entry state. -/
structure Detection where
  jd : ℚ
  fwhm : FieldVal ℚ
  elong : FieldVal ℚ
  magdiff : FieldVal ℚ
  nbad : FieldVal ℚ
  distpsnr1 : FieldVal ℚ
  sgscore1 : FieldVal ℚ
  distpsnr2 : FieldVal ℚ
  sgscore2 : FieldVal ℚ
  distpsnr3 : FieldVal ℚ
  sgscore3 : FieldVal ℚ
  isdiffpos : FieldVal String
  ra : FieldVal ℚ
  dec : FieldVal ℚ
  rb : FieldVal ℚ
  ssdistnr : FieldVal ℚ
  drb : FieldVal ℚ
  candid : FieldVal ℚ
deriving DecidableEq

/-- An alert: the time-ordered photopoints (`ampel_alert.pps`), most recent
first. -/
structure Alert where
  pps : List Detection
deriving DecidableEq

/-- One GAIA DR2 cone-search source record, restricted to the columns
(`my_keys`) the filter keeps. -/
structure GaiaSrc where
  RA : ℚ
  Dec : ℚ
  Mag_G : ℚ
  PMRA : ℚ
  ErrPMRA : ℚ
  PMDec : ℚ
  ErrPMDec : ℚ
  Plx : ℚ
  ErrPlx : ℚ
  ExcessNoiseSig : ℚ
deriving DecidableEq

/-- The filter configuration: the `InitConfig` thresholds as stored on `self`
in `__init__`, plus the configured downstream units `on_match_t2_units`. -/
structure Config where
  min_ndet : ℤ
  min_tspan : ℚ
  max_tspan : ℚ
  min_rb : ℚ
  min_drb : ℚ
  max_fwhm : ℚ
  max_elong : ℚ
  max_magdiff : ℚ
  max_nbad : ℤ
  min_ssdistnr : ℚ
  min_gal_lat : ℚ
  gaia_rs : ℚ
  gaia_pm_signif : ℚ
  gaia_plx_signif : ℚ
  gaia_veto_gmag_min : ℚ
  gaia_veto_gmag_max : ℚ
  gaia_excessnoise_sig_max : ℚ
  ps1_sgveto_rad : ℚ
  ps1_sgveto_th : ℚ
  ps1_confusion_rad : ℚ
  ps1_confusion_sg_tol : ℚ
  on_match_t2_units : List String
deriving DecidableEq

/-- The external collaborators, as opaque pure functions:
* `galLat ra dec`: `SkyCoord(ra, dec, unit='deg').galactic.b.deg`;
* `expf`: `numpy.exp`;
* `sepArcsec tra tdec sra sdec`: astropy angular separation in arcsec between
  the transient position (degrees) and a GAIA source position (radians, as
  stored in the catalog records);
* `coneSearch ra dec radius`: the catsHTM `GAIADR2` cone search; the
  degree-to-radian conversion of the query point happens inside the service
  boundary. -/
structure Env where
  galLat : ℚ → ℚ → ℚ
  expf : ℚ → ℚ
  sepArcsec : ℚ → ℚ → ℚ → ℚ → ℚ
  coneSearch : ℚ → ℚ → ℚ → List GaiaSrc

/-- `_alert_has_keys`: every key of `keys_to_check` is in the photopoint and
not `None`. -/
def alert_has_keys (d : Detection) : Bool :=
  d.fwhm.present && d.elong.present && d.magdiff.present && d.nbad.present &&
  d.distpsnr1.present && d.sgscore1.present && d.distpsnr2.present &&
  d.sgscore2.present && d.distpsnr3.present && d.sgscore3.present &&
  d.isdiffpos.present && d.ra.present && d.dec.present && d.rb.present &&
  d.ssdistnr.present

/-- `get_galactic_latitude`: galactic latitude in degrees of the transient
position, via the astropy collaborator. -/
def get_galactic_latitude (env : Env) (ra dec : ℚ) : ℚ :=
  env.galLat ra dec

/-- `is_star_in_PS1`, on the two fields it reads:
`transient['distpsnr1'] < ps1_sgveto_rad and transient['sgscore1'] > ps1_sgveto_th`. -/
def is_star_in_PS1 (cfg : Config) (distpsnr1 sgscore1 : ℚ) : Bool :=
  decide (distpsnr1 < cfg.ps1_sgveto_rad) && decide (sgscore1 > cfg.ps1_sgveto_th)

/-- `is_confused_in_PS1`, on the six fields it reads:
`max(d1, d2, d3) < ps1_confusion_rad` and
`max(|sg1 - 0.5|, |sg2 - 0.5|, |sg3 - 0.5|) < ps1_confusion_sg_tol`,
returned as `sg_confused and very_close`. -/
def is_confused_in_PS1 (cfg : Config) (d1 d2 d3 sg1 sg2 sg3 : ℚ) : Bool :=
  let very_close := decide (max (max d1 d2) d3 < cfg.ps1_confusion_rad)
  let sg_confused :=
    decide (max (max |sg1 - 0.5| |sg2 - 0.5|) |sg3 - 0.5| < cfg.ps1_confusion_sg_tol)
  sg_confused && very_close

/-- `DISTANCE_NORM and (gaia_veto_gmag_min <= Mag_G <= gaia_veto_gmag_max)`:
the per-row `FLAG_PROX` column. -/
def gaiaProx (cfg : Config) (env : Env) (tra tdec : ℚ) (s : GaiaSrc) : Bool :=
  decide (1.8 + 0.6 * env.expf ((20 - s.Mag_G) / 2.05) > env.sepArcsec tra tdec s.RA s.Dec) &&
  (decide (cfg.gaia_veto_gmag_min ≤ s.Mag_G) && decide (s.Mag_G ≤ cfg.gaia_veto_gmag_max))

/-- The per-row `FLAG_Clean` column: `ExcessNoiseSig < gaia_excessnoise_sig_max`. -/
def gaiaClean (cfg : Config) (s : GaiaSrc) : Bool :=
  decide (s.ExcessNoiseSig < cfg.gaia_excessnoise_sig_max)

/-- The per-row `FLAG_PMRA` column: `abs(PMRA / ErrPMRA) > gaia_pm_signif`. -/
def flagPMRA (cfg : Config) (s : GaiaSrc) : Bool :=
  decide (|s.PMRA / s.ErrPMRA| > cfg.gaia_pm_signif)

/-- The per-row `FLAG_PMDec` column: `abs(PMDec / ErrPMDec) > gaia_pm_signif`. -/
def flagPMDec (cfg : Config) (s : GaiaSrc) : Bool :=
  decide (|s.PMDec / s.ErrPMDec| > cfg.gaia_pm_signif)

/-- The per-row `FLAG_Plx` column: `abs(Plx / ErrPlx) > gaia_plx_signif`. -/
def flagPlx (cfg : Config) (s : GaiaSrc) : Bool :=
  decide (|s.Plx / s.ErrPlx| > cfg.gaia_plx_signif)

/-- `is_star_in_gaia`: cone-search GAIA DR2 at the transient position with
radius `gaia_rs`; keep the sources flagged proximate (`FLAG_PROX`) and clean
(`FLAG_Clean`, filtered in that order); return whether any kept source has a
significant proper-motion or parallax flag.  The source code computes the flag
columns table-wide before filtering; since every flag is per-row, checking the
flags on the filtered rows is the same. -/
def is_star_in_gaia (cfg : Config) (env : Env) (ra dec : ℚ) : Bool :=
  let srcs := env.coneSearch ra dec cfg.gaia_rs
  if srcs.length > 0 then
    let sel := (srcs.filter (gaiaProx cfg env ra dec)).filter (gaiaClean cfg)
    sel.any (flagPMRA cfg) || sel.any (flagPMDec cfg) || sel.any (flagPlx cfg)
  else false

/-- Python `max` of a nonempty list, seeded with the head. -/
def listMax (x : ℚ) (l : List ℚ) : ℚ :=
  l.foldl max x

/-- Python `min` of a nonempty list, seeded with the head. -/
def listMin (x : ℚ) (l : List ℚ) : ℚ :=
  l.foldl min x

/-- `get_values('jd')` over the photopoints. -/
def jdList (pps : List Detection) : List ℚ :=
  pps.map Detection.jd

/-- `det_tspan = max(detections_jds) - min(detections_jds)` for the nonempty
photopoint list `latest :: rest`. -/
def detTspan (latest : Detection) (rest : List Detection) : ℚ :=
  listMax latest.jd (jdList rest) - listMin latest.jd (jdList rest)

/-- The deep-real-bogus step `min_drb > 0. and latest['drb'] < min_drb`;
the short-circuiting `and` accesses `latest['drb']` only when
`min_drb > 0`. -/
def drbGateCheck (cfg : Config) (drb : FieldVal ℚ) : Except PyErr Bool :=
  if cfg.min_drb > 0 then (drb.get "drb").map (fun v => decide (v < cfg.min_drb))
  else .ok false

/-- `DecentFilter.apply`: `.ok none` models `return None` (rejection),
`.ok (some tags)` models returning `self.on_match_t2_units` (acceptance),
`.error e` models an uncaught Python exception. -/
def apply (cfg : Config) (env : Env) (alert : Alert) : Except PyErr (Option (List String)) :=
  if (alert.pps.length : ℤ) < cfg.min_ndet then .ok none else
  match alert.pps with
  | [] => .error .valueError
  | latest :: rest =>
    if ¬ (cfg.min_tspan < detTspan latest rest ∧ detTspan latest rest < cfg.max_tspan) then
      .ok none
    else if ¬ alert_has_keys latest then .ok none else
    match latest.isdiffpos.get "isdiffpos" with
    | .error e => .error e
    | .ok isdp =>
    if isdp = "f" ∨ isdp = "0" then .ok none else
    match latest.rb.get "rb" with
    | .error e => .error e
    | .ok rbv =>
    if rbv < cfg.min_rb then .ok none else
    match drbGateCheck cfg latest.drb with
    | .error e => .error e
    | .ok true => .ok none
    | .ok false =>
    match latest.fwhm.get "fwhm" with
    | .error e => .error e
    | .ok fwhmv =>
    if fwhmv > cfg.max_fwhm then .ok none else
    match latest.elong.get "elong" with
    | .error e => .error e
    | .ok elongv =>
    if elongv > cfg.max_elong then .ok none else
    match latest.magdiff.get "magdiff" with
    | .error e => .error e
    | .ok magdiffv =>
    if |magdiffv| > cfg.max_magdiff then .ok none else
    match latest.ssdistnr.get "ssdistnr" with
    | .error e => .error e
    | .ok ssd =>
    if 0 ≤ ssd ∧ ssd < cfg.min_ssdistnr then .ok none else
    match latest.ra.get "ra" with
    | .error e => .error e
    | .ok rav =>
    match latest.dec.get "dec" with
    | .error e => .error e
    | .ok decv =>
    if |get_galactic_latitude env rav decv| < cfg.min_gal_lat then .ok none else
    match latest.distpsnr1.get "distpsnr1" with
    | .error e => .error e
    | .ok d1 =>
    match latest.sgscore1.get "sgscore1" with
    | .error e => .error e
    | .ok s1 =>
    if is_star_in_PS1 cfg d1 s1 then .ok none else
    match latest.distpsnr2.get "distpsnr2" with
    | .error e => .error e
    | .ok d2 =>
    match latest.sgscore2.get "sgscore2" with
    | .error e => .error e
    | .ok s2 =>
    match latest.distpsnr3.get "distpsnr3" with
    | .error e => .error e
    | .ok d3 =>
    match latest.sgscore3.get "sgscore3" with
    | .error e => .error e
    | .ok s3 =>
    if is_confused_in_PS1 cfg d1 d2 d3 s1 s2 s3 then .ok none else
    if is_star_in_gaia cfg env rav decv then .ok none else
    match latest.candid with
    | .absent => .error (.keyError "candid")
    | _ => .ok (some cfg.on_match_t2_units)

/-! ### The spec-side gate pipeline (§4.1), for the refinement claim -/

/-- Outcome of one gate: pass, reject the alert, or raise a Python exception. -/
inductive Outcome where
  | pass
  | reject
  | raise (e : PyErr)
deriving DecidableEq

/-- Modelled from the spec (§4.1 gate 1): detection count. -/
def gateCount (cfg : Config) (pps : List Detection) : Outcome :=
  if (pps.length : ℤ) < cfg.min_ndet then .reject else .pass

/-- Modelled from the spec (§4.1 gate 2): history span, strict inequality on
both sides.  Python `max()` of an empty sequence raises `ValueError`. -/
def gateSpan (cfg : Config) (pps : List Detection) : Outcome :=
  match pps with
  | [] => .raise .valueError
  | latest :: rest =>
    if cfg.min_tspan < detTspan latest rest ∧ detTspan latest rest < cfg.max_tspan then
      .pass
    else .reject

/-- Modelled from the spec (§4.1 gate 3): field completeness of the latest
detection, over the fixed required-field set `keys_to_check`. -/
def gateCompleteness (latest : Detection) : Outcome :=
  if alert_has_keys latest then .pass else .reject

/-- Modelled from the spec (§4.1 gate 4): sign of flux difference,
rejecting on either of the two false markers. -/
def gateSign (latest : Detection) : Outcome :=
  match latest.isdiffpos.get "isdiffpos" with
  | .error e => .raise e
  | .ok s => if s = "f" ∨ s = "0" then .reject else .pass

/-- Modelled from the spec (§4.1 gate 5): real-bogus score. -/
def gateRb (cfg : Config) (latest : Detection) : Outcome :=
  match latest.rb.get "rb" with
  | .error e => .raise e
  | .ok v => if v < cfg.min_rb then .reject else .pass

/-- Modelled from the spec (§4.1 gate 6): deep real-bogus score, checked only
when `min_drb > 0`; the spec leaves a missing `drb` unspecified, the access
semantics of the source is kept (see the claim about the `drb` `KeyError`). -/
def gateDrb (cfg : Config) (latest : Detection) : Outcome :=
  match drbGateCheck cfg latest.drb with
  | .error e => .raise e
  | .ok true => .reject
  | .ok false => .pass

/-- Modelled from the spec (§4.1 gate 7): image quality — FWHM, elongation and
absolute magnitude difference, in that order. -/
def gateImageQuality (cfg : Config) (latest : Detection) : Outcome :=
  match latest.fwhm.get "fwhm" with
  | .error e => .raise e
  | .ok f =>
  if f > cfg.max_fwhm then .reject else
  match latest.elong.get "elong" with
  | .error e => .raise e
  | .ok el =>
  if el > cfg.max_elong then .reject else
  match latest.magdiff.get "magdiff" with
  | .error e => .raise e
  | .ok m => if |m| > cfg.max_magdiff then .reject else .pass

/-- Modelled from the spec (§4.1 gate 8): solar-system-object proximity;
a negative distance never rejects. -/
def gateSso (cfg : Config) (latest : Detection) : Outcome :=
  match latest.ssdistnr.get "ssdistnr" with
  | .error e => .raise e
  | .ok v => if 0 ≤ v ∧ v < cfg.min_ssdistnr then .reject else .pass

/-- Modelled from the spec (§4.1 gate 9): galactic latitude. -/
def gateGalLat (cfg : Config) (env : Env) (latest : Detection) : Outcome :=
  match latest.ra.get "ra" with
  | .error e => .raise e
  | .ok rav =>
  match latest.dec.get "dec" with
  | .error e => .raise e
  | .ok decv =>
  if |get_galactic_latitude env rav decv| < cfg.min_gal_lat then .reject else .pass

/-- Modelled from the spec (§4.1 gate 10): local-catalog (PS1) star veto. -/
def gatePs1Star (cfg : Config) (latest : Detection) : Outcome :=
  match latest.distpsnr1.get "distpsnr1" with
  | .error e => .raise e
  | .ok d1 =>
  match latest.sgscore1.get "sgscore1" with
  | .error e => .raise e
  | .ok s1 => if is_star_in_PS1 cfg d1 s1 then .reject else .pass

/-- Modelled from the spec (§4.1 gate 11): local-catalog (PS1) confusion veto. -/
def gatePs1Confusion (cfg : Config) (latest : Detection) : Outcome :=
  match latest.distpsnr1.get "distpsnr1" with
  | .error e => .raise e
  | .ok d1 =>
  match latest.sgscore1.get "sgscore1" with
  | .error e => .raise e
  | .ok s1 =>
  match latest.distpsnr2.get "distpsnr2" with
  | .error e => .raise e
  | .ok d2 =>
  match latest.sgscore2.get "sgscore2" with
  | .error e => .raise e
  | .ok s2 =>
  match latest.distpsnr3.get "distpsnr3" with
  | .error e => .raise e
  | .ok d3 =>
  match latest.sgscore3.get "sgscore3" with
  | .error e => .raise e
  | .ok s3 => if is_confused_in_PS1 cfg d1 d2 d3 s1 s2 s3 then .reject else .pass

/-- Modelled from the spec (§4.1 gate 12): remote-catalog (GAIA) star veto. -/
def gateGaia (cfg : Config) (env : Env) (latest : Detection) : Outcome :=
  match latest.ra.get "ra" with
  | .error e => .raise e
  | .ok rav =>
  match latest.dec.get "dec" with
  | .error e => .raise e
  | .ok decv =>
  if is_star_in_gaia cfg env rav decv then .reject else .pass

/-- A photopoint with every dict entry missing; used only as the (never
inspected) placeholder latest detection of an empty alert. -/
def dfltDet : Detection :=
  ⟨0, .absent, .absent, .absent, .absent, .absent, .absent, .absent, .absent,
   .absent, .absent, .absent, .absent, .absent, .absent, .absent, .absent, .absent⟩

/-- Modelled from the spec (§4.1): the twelve gates in the listed order. -/
def specGates (cfg : Config) (env : Env) (a : Alert) : List Outcome :=
  let latest := a.pps.headD dfltDet
  [gateCount cfg a.pps, gateSpan cfg a.pps, gateCompleteness latest,
   gateSign latest, gateRb cfg latest, gateDrb cfg latest,
   gateImageQuality cfg latest, gateSso cfg latest, gateGalLat cfg env latest,
   gatePs1Star cfg latest, gatePs1Confusion cfg latest, gateGaia cfg env latest]

/-- First non-passing outcome of the ordered gate list wins; all-pass gives
`pass`.  No outcome is cached or revisited. -/
def pipelineOutcome : List Outcome → Outcome
  | [] => .pass
  | .pass :: rest => pipelineOutcome rest
  | .reject :: _ => .reject
  | .raise e :: _ => .raise e

/-- The accept step: the source's accept path reads `latest['candid']` for its
debug log before returning the configured downstream tags. -/
def acceptStep (cfg : Config) (latest : Detection) : Except PyErr (Option (List String)) :=
  match latest.candid with
  | .absent => .error (.keyError "candid")
  | _ => .ok (some cfg.on_match_t2_units)

/-- Modelled from the spec (§4.1): ordered short-circuiting gate pipeline.
A rejecting gate returns `None`, an exception propagates, and only when every
gate passes is the accept step reached. -/
def specEvaluate (cfg : Config) (env : Env) (a : Alert) : Except PyErr (Option (List String)) :=
  match pipelineOutcome (specGates cfg env a) with
  | .reject => .ok none
  | .raise e => .error e
  | .pass => acceptStep cfg (a.pps.headD dfltDet)

/-! ### Concrete fixtures for witnesses -/

/-- A concrete configuration with every gate enabled. -/
def cfg0 : Config :=
  { min_ndet := 1, min_tspan := 0, max_tspan := 5, min_rb := 0.3, min_drb := 0,
    max_fwhm := 5, max_elong := 2, max_magdiff := 1, max_nbad := 2,
    min_ssdistnr := 20, min_gal_lat := 14, gaia_rs := 20, gaia_pm_signif := 3,
    gaia_plx_signif := 3, gaia_veto_gmag_min := 9, gaia_veto_gmag_max := 20,
    gaia_excessnoise_sig_max := 999, ps1_sgveto_rad := 1, ps1_sgveto_th := 0.8,
    ps1_confusion_rad := 3, ps1_confusion_sg_tol := 0.1,
    on_match_t2_units := ["SNCOSMO"] }

/-- A concrete environment: empty cone search, flat collaborator outputs. -/
def env0 : Env :=
  { galLat := fun _ _ => 30, expf := fun _ => 1,
    sepArcsec := fun _ _ _ _ => 0, coneSearch := fun _ _ _ => [] }

/-- A concrete clean photopoint that passes every per-detection gate of `cfg0`. -/
def det0 : Detection :=
  { jd := 2458500, fwhm := .val 2, elong := .val 1.2, magdiff := .val 0.1,
    nbad := .val 0, distpsnr1 := .val 10, sgscore1 := .val 0.2,
    distpsnr2 := .val 20, sgscore2 := .val 0.1, distpsnr3 := .val 30,
    sgscore3 := .val 0.9, isdiffpos := .val "t", ra := .val 150,
    dec := .val 30, rb := .val 0.6, ssdistnr := .val (-999), drb := .val 0.9,
    candid := .val 1 }

/-- A second clean photopoint one day later. -/
def det1 : Detection :=
  { det0 with jd := 2458501 }

/-- A concrete alert with two detections spanning one day. -/
def alert0 : Alert :=
  ⟨[det1, det0]⟩

/-- A concrete GAIA source: bright, zero separation, clean astrometry, and a
proper-motion ratio `PMRA/ErrPMRA = 10`. -/
def gsrc0 : GaiaSrc :=
  { RA := 1, Dec := 1, Mag_G := 15, PMRA := 10, ErrPMRA := 1, PMDec := 0,
    ErrPMDec := 1, Plx := 0, ErrPlx := 1, ExcessNoiseSig := 0 }

/-- `env0` with a cone search returning exactly `gsrc0`. -/
def env1 : Env :=
  { env0 with coneSearch := fun _ _ _ => [gsrc0] }

/-- `cfg0` with the spec-example proper-motion threshold `gaia_pm_signif = 5`. -/
def cfg5 : Config :=
  { cfg0 with gaia_pm_signif := 5 }

/-- `gsrc0` with G-magnitude outside the veto window `[9, 20]` of `cfg0`. -/
def gsrc1 : GaiaSrc :=
  { gsrc0 with Mag_G := 25 }

/-- `env0` with a cone search returning exactly `gsrc1`. -/
def env2 : Env :=
  { env0 with coneSearch := fun _ _ _ => [gsrc1] }

/-! ### Helper lemmas -/

theorem present_exists {α : Type} {f : FieldVal α} (h : f.present = true) :
    ∃ v, f = .val v := by
  cases f <;> simp_all [FieldVal.present]

/-- A detection passing `_alert_has_keys` carries a value in every required
field. -/
theorem alert_has_keys_elim {d : Detection} (h : alert_has_keys d = true) :
    (∃ v, d.fwhm = .val v) ∧ (∃ v, d.elong = .val v) ∧ (∃ v, d.magdiff = .val v) ∧
    (∃ v, d.nbad = .val v) ∧ (∃ v, d.distpsnr1 = .val v) ∧ (∃ v, d.sgscore1 = .val v) ∧
    (∃ v, d.distpsnr2 = .val v) ∧ (∃ v, d.sgscore2 = .val v) ∧ (∃ v, d.distpsnr3 = .val v) ∧
    (∃ v, d.sgscore3 = .val v) ∧ (∃ v, d.isdiffpos = .val v) ∧ (∃ v, d.ra = .val v) ∧
    (∃ v, d.dec = .val v) ∧ (∃ v, d.rb = .val v) ∧ (∃ v, d.ssdistnr = .val v) := by
  simp only [alert_has_keys, Bool.and_eq_true] at h
  refine ⟨present_exists ?_, present_exists ?_, present_exists ?_, present_exists ?_,
    present_exists ?_, present_exists ?_, present_exists ?_, present_exists ?_,
    present_exists ?_, present_exists ?_, present_exists ?_, present_exists ?_,
    present_exists ?_, present_exists ?_, present_exists ?_⟩ <;> tauto

/-- C1: `DecentFilter.apply` implements the ordered, short-circuiting gate
pipeline of §4.1: the gates are applied strictly in the listed order, the
first failing gate yields the rejection `None` without any later gate being
consulted, a raising gate propagates its exception, and only when every gate
passes is the accept step reached, returning the configured
`on_match_t2_units` tags. -/
theorem c1_ordered_gate_pipeline (cfg : Config) (env : Env) (a : Alert) :
    apply cfg env a = specEvaluate cfg env a := by
  obtain ⟨pps⟩ := a
  cases pps with
  | nil =>
    dsimp only [apply, specEvaluate, specGates, gateCount, gateSpan]
    by_cases h1 : (([] : List Detection).length : ℤ) < cfg.min_ndet
    case pos => simp only [if_pos h1]; rfl
    case neg => simp only [if_neg h1]; rfl
  | cons latest rest =>
    dsimp only [apply]
    dsimp only [specEvaluate, specGates, List.headD]
    dsimp only [gateCount, gateSpan, gateCompleteness, gateSign, gateRb, gateDrb]
    dsimp only [gateImageQuality, gateSso, gateGalLat, gatePs1Star, gatePs1Confusion,
      gateGaia, acceptStep]
    by_cases h1 : ((latest :: rest).length : ℤ) < cfg.min_ndet
    case pos => simp only [if_pos h1]; rfl
    case neg =>
    simp only [if_neg h1]
    by_cases h2 : cfg.min_tspan < detTspan latest rest ∧ detTspan latest rest < cfg.max_tspan
    case neg =>
      simp only [if_pos h2, if_neg h2]
      rfl
    case pos =>
    simp only [if_neg (not_not_intro h2), if_pos h2]
    by_cases h3 : alert_has_keys latest = true
    case neg =>
      simp only [if_pos h3, if_neg h3]
      rfl
    case pos =>
    simp only [if_neg (not_not_intro h3), if_pos h3]
    rcases hdp : latest.isdiffpos.get "isdiffpos" with e | dp
    case error => simp only [hdp]; rfl
    case ok =>
    simp only [hdp]
    by_cases h4 : dp = "f" ∨ dp = "0"
    case pos => simp only [if_pos h4]; rfl
    case neg =>
    simp only [if_neg h4]
    rcases hrbv : latest.rb.get "rb" with e | rbv
    case error => simp only [hrbv]; rfl
    case ok =>
    simp only [hrbv]
    by_cases h5 : rbv < cfg.min_rb
    case pos => simp only [if_pos h5]; rfl
    case neg =>
    simp only [if_neg h5]
    rcases hdrb : drbGateCheck cfg latest.drb with e | b
    case error => simp only [hdrb]; rfl
    case ok =>
    cases b with
    | true => rfl
    | false =>
    rcases hfwhmv : latest.fwhm.get "fwhm" with e | fwhmv
    case error => simp only [hfwhmv]; rfl
    case ok =>
    simp only [hfwhmv]
    by_cases h6 : fwhmv > cfg.max_fwhm
    case pos => simp only [if_pos h6]; rfl
    case neg =>
    simp only [if_neg h6]
    rcases helongv : latest.elong.get "elong" with e | elongv
    case error => simp only [helongv]; rfl
    case ok =>
    simp only [helongv]
    by_cases h7 : elongv > cfg.max_elong
    case pos => simp only [if_pos h7]; rfl
    case neg =>
    simp only [if_neg h7]
    rcases hmagdiffv : latest.magdiff.get "magdiff" with e | magdiffv
    case error => simp only [hmagdiffv]; rfl
    case ok =>
    simp only [hmagdiffv]
    by_cases h8 : |magdiffv| > cfg.max_magdiff
    case pos => simp only [if_pos h8]; rfl
    case neg =>
    simp only [if_neg h8]
    rcases hssd : latest.ssdistnr.get "ssdistnr" with e | ssd
    case error => simp only [hssd]; rfl
    case ok =>
    simp only [hssd]
    by_cases h9 : 0 ≤ ssd ∧ ssd < cfg.min_ssdistnr
    case pos => simp only [if_pos h9]; rfl
    case neg =>
    simp only [if_neg h9]
    rcases hrav : latest.ra.get "ra" with e | rav
    case error => simp only [hrav]; rfl
    case ok =>
    simp only [hrav]
    rcases hdecv : latest.dec.get "dec" with e | decv
    case error => simp only [hdecv]; rfl
    case ok =>
    simp only [hdecv]
    by_cases h10 : |get_galactic_latitude env rav decv| < cfg.min_gal_lat
    case pos => simp only [if_pos h10]; rfl
    case neg =>
    simp only [if_neg h10]
    rcases hd1 : latest.distpsnr1.get "distpsnr1" with e | d1
    case error => simp only [hd1]; rfl
    case ok =>
    simp only [hd1]
    rcases hs1 : latest.sgscore1.get "sgscore1" with e | s1
    case error => simp only [hs1]; rfl
    case ok =>
    simp only [hs1]
    by_cases h11 : is_star_in_PS1 cfg d1 s1 = true
    case pos => simp only [if_pos h11]; rfl
    case neg =>
    simp only [if_neg h11]
    rcases hd2 : latest.distpsnr2.get "distpsnr2" with e | d2
    case error => simp only [hd2]; rfl
    case ok =>
    simp only [hd2]
    rcases hs2 : latest.sgscore2.get "sgscore2" with e | s2
    case error => simp only [hs2]; rfl
    case ok =>
    simp only [hs2]
    rcases hd3 : latest.distpsnr3.get "distpsnr3" with e | d3
    case error => simp only [hd3]; rfl
    case ok =>
    simp only [hd3]
    rcases hs3 : latest.sgscore3.get "sgscore3" with e | s3
    case error => simp only [hs3]; rfl
    case ok =>
    simp only [hs3]
    by_cases h12 : is_confused_in_PS1 cfg d1 d2 d3 s1 s2 s3 = true
    case pos => simp only [if_pos h12]; rfl
    case neg =>
    simp only [if_neg h12]
    by_cases h13 : is_star_in_gaia cfg env rav decv = true
    case pos => simp only [if_pos h13]; rfl
    case neg =>
    simp only [if_neg h13]
    rcases hc : latest.candid with _ | _ | cv <;> simp only [hc] <;> rfl

/-- An alert whose detection span fails the strict two-sided window is
rejected, whatever the remaining fields hold. -/
theorem apply_span_reject (cfg : Config) (env : Env) (latest : Detection) (rest : List Detection)
    (hcount : ¬ ((latest :: rest).length : ℤ) < cfg.min_ndet)
    (hspan : ¬ (cfg.min_tspan < detTspan latest rest ∧ detTspan latest rest < cfg.max_tspan)) :
    apply cfg env ⟨latest :: rest⟩ = .ok none := by
  dsimp only [apply]
  simp only [if_neg hcount, if_pos hspan]

/-- When every gate passes and `candid` is present, `apply` accepts with the
configured tags. -/
theorem apply_accepts (cfg : Config) (env : Env) (latest : Detection) (rest : List Detection)
    (dp : String) (fw el md nb rbv ssd rav decv d1 s1 d2 s2 d3 s3 : ℚ)
    (hfw : latest.fwhm = .val fw) (hel : latest.elong = .val el)
    (hmd : latest.magdiff = .val md) (hnb : latest.nbad = .val nb)
    (hd1 : latest.distpsnr1 = .val d1) (hs1 : latest.sgscore1 = .val s1)
    (hd2 : latest.distpsnr2 = .val d2) (hs2 : latest.sgscore2 = .val s2)
    (hd3 : latest.distpsnr3 = .val d3) (hs3 : latest.sgscore3 = .val s3)
    (hdp : latest.isdiffpos = .val dp) (hra : latest.ra = .val rav)
    (hdec : latest.dec = .val decv) (hrb : latest.rb = .val rbv)
    (hss : latest.ssdistnr = .val ssd)
    (hcount : ¬ ((latest :: rest).length : ℤ) < cfg.min_ndet)
    (hspan : cfg.min_tspan < detTspan latest rest ∧ detTspan latest rest < cfg.max_tspan)
    (hsign : ¬ (dp = "f" ∨ dp = "0"))
    (hrbv : ¬ rbv < cfg.min_rb)
    (hdrb : drbGateCheck cfg latest.drb = .ok false)
    (hfwv : ¬ fw > cfg.max_fwhm) (helv : ¬ el > cfg.max_elong)
    (hmdv : ¬ |md| > cfg.max_magdiff)
    (hsso : ¬ (0 ≤ ssd ∧ ssd < cfg.min_ssdistnr))
    (hgal : ¬ |get_galactic_latitude env rav decv| < cfg.min_gal_lat)
    (hps1 : ¬ is_star_in_PS1 cfg d1 s1 = true)
    (hconf : ¬ is_confused_in_PS1 cfg d1 d2 d3 s1 s2 s3 = true)
    (hgaia : ¬ is_star_in_gaia cfg env rav decv = true)
    (hcand : latest.candid ≠ .absent) :
    apply cfg env ⟨latest :: rest⟩ = .ok (some cfg.on_match_t2_units) := by
  have hkeys : alert_has_keys latest = true := by
    simp [alert_has_keys, hfw, hel, hmd, hnb, hd1, hs1, hd2, hs2, hd3, hs3, hdp, hra, hdec,
      hrb, hss, FieldVal.present]
  dsimp only [apply]
  simp only [hfw, hel, hmd, hd1, hs1, hd2, hs2, hd3, hs3, hdp, hra, hdec, hrb, hss,
    FieldVal.get, hdrb]
  simp only [if_neg hcount, if_neg (not_not_intro hspan), if_neg (not_not_intro hkeys),
    if_neg hsign, if_neg hrbv, if_neg hfwv, if_neg helv, if_neg hmdv, if_neg hsso,
    if_neg hgal, if_neg hps1, if_neg hconf, if_neg hgaia]

/-- With every gate before it passing, a solar-system-object distance that is
non-negative and below the threshold rejects the alert. -/
theorem apply_sso_reject (cfg : Config) (env : Env) (latest : Detection) (rest : List Detection)
    (dp : String) (fw el md nb rbv ssd rav decv d1 s1 d2 s2 d3 s3 : ℚ)
    (hfw : latest.fwhm = .val fw) (hel : latest.elong = .val el)
    (hmd : latest.magdiff = .val md) (hnb : latest.nbad = .val nb)
    (hd1 : latest.distpsnr1 = .val d1) (hs1 : latest.sgscore1 = .val s1)
    (hd2 : latest.distpsnr2 = .val d2) (hs2 : latest.sgscore2 = .val s2)
    (hd3 : latest.distpsnr3 = .val d3) (hs3 : latest.sgscore3 = .val s3)
    (hdp : latest.isdiffpos = .val dp) (hra : latest.ra = .val rav)
    (hdec : latest.dec = .val decv) (hrb : latest.rb = .val rbv)
    (hss : latest.ssdistnr = .val ssd)
    (hcount : ¬ ((latest :: rest).length : ℤ) < cfg.min_ndet)
    (hspan : cfg.min_tspan < detTspan latest rest ∧ detTspan latest rest < cfg.max_tspan)
    (hsign : ¬ (dp = "f" ∨ dp = "0"))
    (hrbv : ¬ rbv < cfg.min_rb)
    (hdrb : drbGateCheck cfg latest.drb = .ok false)
    (hfwv : ¬ fw > cfg.max_fwhm) (helv : ¬ el > cfg.max_elong)
    (hmdv : ¬ |md| > cfg.max_magdiff)
    (hsso : 0 ≤ ssd ∧ ssd < cfg.min_ssdistnr) :
    apply cfg env ⟨latest :: rest⟩ = .ok none := by
  have hkeys : alert_has_keys latest = true := by
    simp [alert_has_keys, hfw, hel, hmd, hnb, hd1, hs1, hd2, hs2, hd3, hs3, hdp, hra, hdec,
      hrb, hss, FieldVal.present]
  dsimp only [apply]
  simp only [hfw, hel, hmd, hd1, hs1, hd2, hs2, hd3, hs3, hdp, hra, hdec, hrb, hss,
    FieldVal.get, hdrb]
  simp only [if_neg hcount, if_neg (not_not_intro hspan), if_neg (not_not_intro hkeys),
    if_neg hsign, if_neg hrbv, if_neg hfwv, if_neg helv, if_neg hmdv, if_pos hsso]

/-- With every gate before it passing, a positive GAIA star match rejects the
alert. -/
theorem apply_gaia_reject (cfg : Config) (env : Env) (latest : Detection) (rest : List Detection)
    (dp : String) (fw el md nb rbv ssd rav decv d1 s1 d2 s2 d3 s3 : ℚ)
    (hfw : latest.fwhm = .val fw) (hel : latest.elong = .val el)
    (hmd : latest.magdiff = .val md) (hnb : latest.nbad = .val nb)
    (hd1 : latest.distpsnr1 = .val d1) (hs1 : latest.sgscore1 = .val s1)
    (hd2 : latest.distpsnr2 = .val d2) (hs2 : latest.sgscore2 = .val s2)
    (hd3 : latest.distpsnr3 = .val d3) (hs3 : latest.sgscore3 = .val s3)
    (hdp : latest.isdiffpos = .val dp) (hra : latest.ra = .val rav)
    (hdec : latest.dec = .val decv) (hrb : latest.rb = .val rbv)
    (hss : latest.ssdistnr = .val ssd)
    (hcount : ¬ ((latest :: rest).length : ℤ) < cfg.min_ndet)
    (hspan : cfg.min_tspan < detTspan latest rest ∧ detTspan latest rest < cfg.max_tspan)
    (hsign : ¬ (dp = "f" ∨ dp = "0"))
    (hrbv : ¬ rbv < cfg.min_rb)
    (hdrb : drbGateCheck cfg latest.drb = .ok false)
    (hfwv : ¬ fw > cfg.max_fwhm) (helv : ¬ el > cfg.max_elong)
    (hmdv : ¬ |md| > cfg.max_magdiff)
    (hsso : ¬ (0 ≤ ssd ∧ ssd < cfg.min_ssdistnr))
    (hgal : ¬ |get_galactic_latitude env rav decv| < cfg.min_gal_lat)
    (hps1 : ¬ is_star_in_PS1 cfg d1 s1 = true)
    (hconf : ¬ is_confused_in_PS1 cfg d1 d2 d3 s1 s2 s3 = true)
    (hgaia : is_star_in_gaia cfg env rav decv = true) :
    apply cfg env ⟨latest :: rest⟩ = .ok none := by
  have hkeys : alert_has_keys latest = true := by
    simp [alert_has_keys, hfw, hel, hmd, hnb, hd1, hs1, hd2, hs2, hd3, hs3, hdp, hra, hdec,
      hrb, hss, FieldVal.present]
  dsimp only [apply]
  simp only [hfw, hel, hmd, hd1, hs1, hd2, hs2, hd3, hs3, hdp, hra, hdec, hrb, hss,
    FieldVal.get, hdrb]
  simp only [if_neg hcount, if_neg (not_not_intro hspan), if_neg (not_not_intro hkeys),
    if_neg hsign, if_neg hrbv, if_neg hfwv, if_neg helv, if_neg hmdv, if_neg hsso,
    if_neg hgal, if_neg hps1, if_neg hconf, if_pos hgaia]

/-- A single cone-search source that is proximate, inside the magnitude
window, clean, and with significant `PMRA` proper motion makes
`is_star_in_gaia` return `True`. -/
theorem is_star_in_gaia_single_pm (cfg : Config) (env : Env) (rav decv : ℚ) (s : GaiaSrc)
    (hcone : env.coneSearch rav decv cfg.gaia_rs = [s])
    (hprox : 1.8 + 0.6 * env.expf ((20 - s.Mag_G) / 2.05) > env.sepArcsec rav decv s.RA s.Dec)
    (hwin : cfg.gaia_veto_gmag_min ≤ s.Mag_G ∧ s.Mag_G ≤ cfg.gaia_veto_gmag_max)
    (hclean : s.ExcessNoiseSig < cfg.gaia_excessnoise_sig_max)
    (hpm : |s.PMRA / s.ErrPMRA| > cfg.gaia_pm_signif) :
    is_star_in_gaia cfg env rav decv = true := by
  have hpx : gaiaProx cfg env rav decv s = true := by
    simp [gaiaProx, hprox, hwin.1, hwin.2]
  have hcl : gaiaClean cfg s = true := by
    simp [gaiaClean, hclean]
  have hf : flagPMRA cfg s = true := by
    simp [flagPMRA, hpm]
  simp [is_star_in_gaia, hcone, List.filter, hpx, hcl, hf]

/-- A single cone-search source outside the magnitude window is filtered out
by `FLAG_PROX`, so `is_star_in_gaia` returns `False`. -/
theorem is_star_in_gaia_single_notwin (cfg : Config) (env : Env) (rav decv : ℚ) (s : GaiaSrc)
    (hcone : env.coneSearch rav decv cfg.gaia_rs = [s])
    (hnwin : ¬ (cfg.gaia_veto_gmag_min ≤ s.Mag_G ∧ s.Mag_G ≤ cfg.gaia_veto_gmag_max)) :
    is_star_in_gaia cfg env rav decv = false := by
  have hpx : gaiaProx cfg env rav decv s = false := by
    simp only [gaiaProx, Bool.and_eq_false_iff, decide_eq_false_iff_not]
    rcases not_and_or.mp hnwin with h | h
    · exact Or.inr (Or.inl h)
    · exact Or.inr (Or.inr h)
  simp [is_star_in_gaia, hcone, List.filter, hpx]

/-- C4: for every alert passing the detection-count gate (the detection list
is nonempty, so the span is defined), a detection span
`s = max(jd) - min(jd)` with `s ≤ min_tspan` or `s ≥ max_tspan` is rejected —
both bounds are strict, so equality on either side rejects; and when
`min_tspan < s < max_tspan` and every other gate passes, the alert is
accepted with the configured tags. -/
theorem c4_history_span (cfg : Config) (env : Env) (latest : Detection) (rest : List Detection)
    (hcount : ¬ ((latest :: rest).length : ℤ) < cfg.min_ndet) :
    ((detTspan latest rest ≤ cfg.min_tspan ∨ cfg.max_tspan ≤ detTspan latest rest) →
      apply cfg env ⟨latest :: rest⟩ = .ok none) ∧
    (∀ (dp : String) (fw el md nb rbv ssd rav decv d1 s1 d2 s2 d3 s3 : ℚ),
      latest.fwhm = .val fw → latest.elong = .val el → latest.magdiff = .val md →
      latest.nbad = .val nb → latest.distpsnr1 = .val d1 → latest.sgscore1 = .val s1 →
      latest.distpsnr2 = .val d2 → latest.sgscore2 = .val s2 → latest.distpsnr3 = .val d3 →
      latest.sgscore3 = .val s3 → latest.isdiffpos = .val dp → latest.ra = .val rav →
      latest.dec = .val decv → latest.rb = .val rbv → latest.ssdistnr = .val ssd →
      cfg.min_tspan < detTspan latest rest → detTspan latest rest < cfg.max_tspan →
      ¬ (dp = "f" ∨ dp = "0") → ¬ rbv < cfg.min_rb →
      drbGateCheck cfg latest.drb = .ok false →
      ¬ fw > cfg.max_fwhm → ¬ el > cfg.max_elong → ¬ |md| > cfg.max_magdiff →
      ¬ (0 ≤ ssd ∧ ssd < cfg.min_ssdistnr) →
      ¬ |get_galactic_latitude env rav decv| < cfg.min_gal_lat →
      ¬ is_star_in_PS1 cfg d1 s1 = true →
      ¬ is_confused_in_PS1 cfg d1 d2 d3 s1 s2 s3 = true →
      ¬ is_star_in_gaia cfg env rav decv = true →
      latest.candid ≠ .absent →
      apply cfg env ⟨latest :: rest⟩ = .ok (some cfg.on_match_t2_units)) := by
  constructor
  · intro h
    have hspan : ¬ (cfg.min_tspan < detTspan latest rest ∧
        detTspan latest rest < cfg.max_tspan) := by
      rcases h with h | h
      · exact fun hand => absurd hand.1 (not_lt.mpr h)
      · exact fun hand => absurd hand.2 (not_lt.mpr h)
    exact apply_span_reject cfg env latest rest hcount hspan
  · intro dp fw el md nb rbv ssd rav decv d1 s1 d2 s2 d3 s3 hfw hel hmd hnb hd1 hs1 hd2
      hs2 hd3 hs3 hdp hra hdec hrb hss ht1 ht2 hsign hrbv hdrb hfwv helv hmdv hsso hgal
      hps1 hconf hgaia hcand
    exact apply_accepts cfg env latest rest dp fw el md nb rbv ssd rav decv d1 s1 d2 s2 d3
      s3 hfw hel hmd hnb hd1 hs1 hd2 hs2 hd3 hs3 hdp hra hdec hrb hss hcount ⟨ht1, ht2⟩
      hsign hrbv hdrb hfwv helv hmdv hsso hgal hps1 hconf hgaia hcand

/-- C4 witness: a two-detection alert with span `0 = min_tspan` is rejected,
and the fixture alert with span `1` inside `(0, 5)` is accepted. -/
theorem c4_history_span_witness :
    apply cfg0 env0 ⟨[det0, det0]⟩ = .ok none ∧
    apply cfg0 env0 ⟨[det1, det0]⟩ = .ok (some cfg0.on_match_t2_units) := by
  constructor
  · exact (c4_history_span cfg0 env0 det0 [det0] (by norm_num [cfg0])).1
      (Or.inl (by norm_num [detTspan, listMax, listMin, jdList, det0, cfg0]))
  · exact (c4_history_span cfg0 env0 det1 [det0] (by norm_num [cfg0])).2
      "t" 2 1.2 0.1 0 0.6 (-999) 150 30 10 0.2 20 0.1 30 0.9
      rfl rfl rfl rfl rfl rfl rfl rfl rfl rfl rfl rfl rfl rfl rfl
      (by norm_num [detTspan, listMax, listMin, jdList, det0, det1, cfg0])
      (by norm_num [detTspan, listMax, listMin, jdList, det0, det1, cfg0])
      (by decide) (by norm_num [cfg0])
      (by norm_num [drbGateCheck, cfg0, det0, det1])
      (by norm_num [cfg0]) (by norm_num [cfg0]) (by norm_num [cfg0, abs])
      (by norm_num [cfg0])
      (by norm_num [get_galactic_latitude, env0, cfg0, abs])
      (by norm_num [is_star_in_PS1, cfg0])
      (by norm_num [is_confused_in_PS1, cfg0, abs])
      (by norm_num [is_star_in_gaia, env0, cfg0])
      (by simp [det0, det1])

/-- C6: if any field of the fixed required-field set is absent from, or null
on, the latest detection, `apply` returns the ordinary rejection `None` — not
an exception — for every alert that passed the count and span gates. -/
theorem c6_missing_field_rejects (cfg : Config) (env : Env) (latest : Detection)
    (rest : List Detection)
    (hcount : ¬ ((latest :: rest).length : ℤ) < cfg.min_ndet)
    (hspan : cfg.min_tspan < detTspan latest rest ∧ detTspan latest rest < cfg.max_tspan)
    (hmiss : (latest.fwhm = .absent ∨ latest.fwhm = .null) ∨
             (latest.elong = .absent ∨ latest.elong = .null) ∨
             (latest.magdiff = .absent ∨ latest.magdiff = .null) ∨
             (latest.nbad = .absent ∨ latest.nbad = .null) ∨
             (latest.distpsnr1 = .absent ∨ latest.distpsnr1 = .null) ∨
             (latest.sgscore1 = .absent ∨ latest.sgscore1 = .null) ∨
             (latest.distpsnr2 = .absent ∨ latest.distpsnr2 = .null) ∨
             (latest.sgscore2 = .absent ∨ latest.sgscore2 = .null) ∨
             (latest.distpsnr3 = .absent ∨ latest.distpsnr3 = .null) ∨
             (latest.sgscore3 = .absent ∨ latest.sgscore3 = .null) ∨
             (latest.isdiffpos = .absent ∨ latest.isdiffpos = .null) ∨
             (latest.ra = .absent ∨ latest.ra = .null) ∨
             (latest.dec = .absent ∨ latest.dec = .null) ∨
             (latest.rb = .absent ∨ latest.rb = .null) ∨
             (latest.ssdistnr = .absent ∨ latest.ssdistnr = .null)) :
    apply cfg env ⟨latest :: rest⟩ = .ok none := by
  have hak : ¬ alert_has_keys latest = true := by
    rcases hmiss with (h | h) | (h | h) | (h | h) | (h | h) | (h | h) | (h | h) | (h | h) |
      (h | h) | (h | h) | (h | h) | (h | h) | (h | h) | (h | h) | (h | h) | (h | h) <;>
      simp [alert_has_keys, h, FieldVal.present]
  dsimp only [apply]
  simp only [if_neg hcount, if_neg (not_not_intro hspan), if_pos hak]

/-- C6 witness: the fixture alert with its latest `fwhm` entry removed is
rejected with `None`. -/
theorem c6_missing_field_rejects_witness :
    apply cfg0 env0 ⟨[{det1 with fwhm := .absent}, det0]⟩ = .ok none := by
  exact c6_missing_field_rejects cfg0 env0 {det1 with fwhm := .absent} [det0]
    (by norm_num [cfg0])
    (by norm_num [detTspan, listMax, listMin, jdList, det0, det1, cfg0])
    (Or.inl (Or.inl rfl))

/-- C2: with evaluation reaching the GAIA gate, a cone-search source that is
proximate (separation strictly below `1.8 + 0.6 * exp((20 - G) / 2.05)`
arcsec), inside the inclusive magnitude window
`[gaia_veto_gmag_min, gaia_veto_gmag_max]`, clean
(`ExcessNoiseSig < gaia_excessnoise_sig_max`) and with
`|PMRA / ErrPMRA| > gaia_pm_signif` makes `apply` reject; the same source with
G-magnitude outside the window does not trigger the GAIA gate, so with every
other gate passing the alert is accepted. -/
theorem c2_gaia_pm_veto (cfg : Config) (env : Env) (latest : Detection) (rest : List Detection)
    (s : GaiaSrc) (dp : String) (fw el md nb rbv ssd rav decv d1 s1 d2 s2 d3 s3 : ℚ)
    (hfw : latest.fwhm = .val fw) (hel : latest.elong = .val el)
    (hmd : latest.magdiff = .val md) (hnb : latest.nbad = .val nb)
    (hd1 : latest.distpsnr1 = .val d1) (hs1 : latest.sgscore1 = .val s1)
    (hd2 : latest.distpsnr2 = .val d2) (hs2 : latest.sgscore2 = .val s2)
    (hd3 : latest.distpsnr3 = .val d3) (hs3 : latest.sgscore3 = .val s3)
    (hdp : latest.isdiffpos = .val dp) (hra : latest.ra = .val rav)
    (hdec : latest.dec = .val decv) (hrb : latest.rb = .val rbv)
    (hss : latest.ssdistnr = .val ssd)
    (hcount : ¬ ((latest :: rest).length : ℤ) < cfg.min_ndet)
    (hspan : cfg.min_tspan < detTspan latest rest ∧ detTspan latest rest < cfg.max_tspan)
    (hsign : ¬ (dp = "f" ∨ dp = "0"))
    (hrbv : ¬ rbv < cfg.min_rb)
    (hdrb : drbGateCheck cfg latest.drb = .ok false)
    (hfwv : ¬ fw > cfg.max_fwhm) (helv : ¬ el > cfg.max_elong)
    (hmdv : ¬ |md| > cfg.max_magdiff)
    (hsso : ¬ (0 ≤ ssd ∧ ssd < cfg.min_ssdistnr))
    (hgal : ¬ |get_galactic_latitude env rav decv| < cfg.min_gal_lat)
    (hps1 : ¬ is_star_in_PS1 cfg d1 s1 = true)
    (hconf : ¬ is_confused_in_PS1 cfg d1 d2 d3 s1 s2 s3 = true)
    (hcone : env.coneSearch rav decv cfg.gaia_rs = [s])
    (hprox : 1.8 + 0.6 * env.expf ((20 - s.Mag_G) / 2.05) > env.sepArcsec rav decv s.RA s.Dec)
    (hclean : s.ExcessNoiseSig < cfg.gaia_excessnoise_sig_max)
    (hpm : |s.PMRA / s.ErrPMRA| > cfg.gaia_pm_signif) :
    ((cfg.gaia_veto_gmag_min ≤ s.Mag_G ∧ s.Mag_G ≤ cfg.gaia_veto_gmag_max) →
      apply cfg env ⟨latest :: rest⟩ = .ok none) ∧
    (¬ (cfg.gaia_veto_gmag_min ≤ s.Mag_G ∧ s.Mag_G ≤ cfg.gaia_veto_gmag_max) →
      latest.candid ≠ .absent →
      apply cfg env ⟨latest :: rest⟩ = .ok (some cfg.on_match_t2_units)) := by
  constructor
  · intro hwin
    exact apply_gaia_reject cfg env latest rest dp fw el md nb rbv ssd rav decv d1 s1 d2 s2
      d3 s3 hfw hel hmd hnb hd1 hs1 hd2 hs2 hd3 hs3 hdp hra hdec hrb hss hcount hspan hsign hrbv hdrb hfwv helv hmdv hsso hgal
      hps1 hconf (is_star_in_gaia_single_pm cfg env rav decv s hcone hprox hwin hclean hpm)
  · intro hnwin hcand
    have hgf := is_star_in_gaia_single_notwin cfg env rav decv s hcone hnwin
    exact apply_accepts cfg env latest rest dp fw el md nb rbv ssd rav decv d1 s1 d2 s2 d3
      s3 hfw hel hmd hnb hd1 hs1 hd2 hs2 hd3 hs3 hdp hra hdec hrb hss hcount hspan hsign hrbv hdrb hfwv helv hmdv hsso hgal hps1
      hconf (by simp [hgf]) hcand

/-- C2 witness: with `gaia_pm_signif = 5` and a source of ratio
`PMRA/ErrPMRA = 10`, the in-window source (`G = 15`) rejects the fixture
alert, and the out-of-window source (`G = 25`) lets it through. -/
theorem c2_gaia_pm_veto_witness :
    apply cfg5 env1 ⟨[det1, det0]⟩ = .ok none ∧
    apply cfg5 env2 ⟨[det1, det0]⟩ = .ok (some cfg5.on_match_t2_units) := by
  constructor
  · exact (c2_gaia_pm_veto cfg5 env1 det1 [det0] gsrc0
      "t" 2 1.2 0.1 0 0.6 (-999) 150 30 10 0.2 20 0.1 30 0.9
      rfl rfl rfl rfl rfl rfl rfl rfl rfl rfl rfl rfl rfl rfl rfl
      (by norm_num [cfg5, cfg0])
      (by norm_num [detTspan, listMax, listMin, jdList, det0, det1, cfg5, cfg0])
      (by decide) (by norm_num [cfg5, cfg0])
      (by norm_num [drbGateCheck, cfg5, cfg0, det0, det1])
      (by norm_num [cfg5, cfg0]) (by norm_num [cfg5, cfg0]) (by norm_num [cfg5, cfg0, abs])
      (by norm_num [cfg5, cfg0])
      (by norm_num [get_galactic_latitude, env1, env0, cfg5, cfg0, abs])
      (by norm_num [is_star_in_PS1, cfg5, cfg0])
      (by norm_num [is_confused_in_PS1, cfg5, cfg0, abs])
      rfl
      (by norm_num [env1, env0, gsrc0])
      (by norm_num [gsrc0, cfg5, cfg0])
      (by norm_num [gsrc0, cfg5, cfg0, abs])).1
      (by norm_num [cfg5, cfg0, gsrc0])
  · exact (c2_gaia_pm_veto cfg5 env2 det1 [det0] gsrc1
      "t" 2 1.2 0.1 0 0.6 (-999) 150 30 10 0.2 20 0.1 30 0.9
      rfl rfl rfl rfl rfl rfl rfl rfl rfl rfl rfl rfl rfl rfl rfl
      (by norm_num [cfg5, cfg0])
      (by norm_num [detTspan, listMax, listMin, jdList, det0, det1, cfg5, cfg0])
      (by decide) (by norm_num [cfg5, cfg0])
      (by norm_num [drbGateCheck, cfg5, cfg0, det0, det1])
      (by norm_num [cfg5, cfg0]) (by norm_num [cfg5, cfg0]) (by norm_num [cfg5, cfg0, abs])
      (by norm_num [cfg5, cfg0])
      (by norm_num [get_galactic_latitude, env2, env0, cfg5, cfg0, abs])
      (by norm_num [is_star_in_PS1, cfg5, cfg0])
      (by norm_num [is_confused_in_PS1, cfg5, cfg0, abs])
      rfl
      (by norm_num [env2, env0, gsrc1, gsrc0])
      (by norm_num [gsrc1, gsrc0, cfg5, cfg0])
      (by norm_num [gsrc1, gsrc0, cfg5, cfg0, abs])).2
      (by norm_num [cfg5, cfg0, gsrc1, gsrc0])
      (by simp [det0, det1])

/-- C3: the PS1 confusion veto fires exactly when all three nearest distances
are strictly below `ps1_confusion_rad` and the maximum deviation of the three
star-galaxy scores from `0.5` is strictly below `ps1_confusion_sg_tol`;
scores `{0.5, 0.5, 0.5}` at distance `0` are confusion-rejected for every
positive radius and tolerance, while scores `{0.1, 0.9, 0.5}` with tolerance
`0.1` never are. -/
theorem c3_ps1_confusion (cfg : Config) :
    (∀ d1 d2 d3 sg1 sg2 sg3 : ℚ,
      is_confused_in_PS1 cfg d1 d2 d3 sg1 sg2 sg3 = true ↔
        (max (max d1 d2) d3 < cfg.ps1_confusion_rad ∧
         max (max |sg1 - 0.5| |sg2 - 0.5|) |sg3 - 0.5| < cfg.ps1_confusion_sg_tol)) ∧
    (0 < cfg.ps1_confusion_rad → 0 < cfg.ps1_confusion_sg_tol →
      is_confused_in_PS1 cfg 0 0 0 0.5 0.5 0.5 = true) ∧
    (cfg.ps1_confusion_sg_tol = 0.1 →
      ∀ d1 d2 d3 : ℚ, is_confused_in_PS1 cfg d1 d2 d3 0.1 0.9 0.5 = false) := by
  refine ⟨fun d1 d2 d3 sg1 sg2 sg3 => ?_, fun hr ht => ?_, fun ht d1 d2 d3 => ?_⟩
  · simp only [is_confused_in_PS1, Bool.and_eq_true, decide_eq_true_eq]
    exact and_comm
  · simp only [is_confused_in_PS1, Bool.and_eq_true, decide_eq_true_eq]
    norm_num [abs]
    exact ⟨ht, hr⟩
  · simp only [is_confused_in_PS1]
    norm_num [abs, max_lt_iff, ht]

/-- C3 witness: with `cfg0` (radius `3`, tolerance `0.1`), ambiguous scores at
distance zero are confusion-flagged and the mixed scores are not. -/
theorem c3_ps1_confusion_witness :
    is_confused_in_PS1 cfg0 0 0 0 0.5 0.5 0.5 = true ∧
    is_confused_in_PS1 cfg0 0 0 0 0.1 0.9 0.5 = false := by
  constructor
  · exact (c3_ps1_confusion cfg0).2.1 (by norm_num [cfg0]) (by norm_num [cfg0])
  · exact (c3_ps1_confusion cfg0).2.2 (by norm_num [cfg0]) 0 0 0

/-- C5: with every other gate passing, the solar-system-object gate rejects
exactly when the latest `ssdistnr` is non-negative and strictly below
`min_dist_to_sso`; a negative distance can never reject: the decision is then
independent of the configured threshold. -/
theorem c5_sso_gate (cfg : Config) (env : Env) (latest : Detection) (rest : List Detection)
    (ssd : ℚ) (hss : latest.ssdistnr = .val ssd) :
    (∀ (dp : String) (fw el md nb rbv rav decv d1 s1 d2 s2 d3 s3 : ℚ),
      latest.fwhm = .val fw → latest.elong = .val el → latest.magdiff = .val md →
      latest.nbad = .val nb → latest.distpsnr1 = .val d1 → latest.sgscore1 = .val s1 →
      latest.distpsnr2 = .val d2 → latest.sgscore2 = .val s2 → latest.distpsnr3 = .val d3 →
      latest.sgscore3 = .val s3 → latest.isdiffpos = .val dp → latest.ra = .val rav →
      latest.dec = .val decv → latest.rb = .val rbv →
      ¬ ((latest :: rest).length : ℤ) < cfg.min_ndet →
      cfg.min_tspan < detTspan latest rest → detTspan latest rest < cfg.max_tspan →
      ¬ (dp = "f" ∨ dp = "0") → ¬ rbv < cfg.min_rb →
      drbGateCheck cfg latest.drb = .ok false →
      ¬ fw > cfg.max_fwhm → ¬ el > cfg.max_elong → ¬ |md| > cfg.max_magdiff →
      ¬ |get_galactic_latitude env rav decv| < cfg.min_gal_lat →
      ¬ is_star_in_PS1 cfg d1 s1 = true →
      ¬ is_confused_in_PS1 cfg d1 d2 d3 s1 s2 s3 = true →
      ¬ is_star_in_gaia cfg env rav decv = true →
      latest.candid ≠ .absent →
      (apply cfg env ⟨latest :: rest⟩ = .ok none ↔ 0 ≤ ssd ∧ ssd < cfg.min_ssdistnr)) ∧
    (ssd < 0 → ∀ t : ℚ,
      apply {cfg with min_ssdistnr := t} env ⟨latest :: rest⟩ =
        apply cfg env ⟨latest :: rest⟩) := by
  constructor
  · intro dp fw el md nb rbv rav decv d1 s1 d2 s2 d3 s3 hfw hel hmd hnb hd1 hs1 hd2 hs2
      hd3 hs3 hdp hra hdec hrb hcount ht1 ht2 hsign hrbv hdrb hfwv helv hmdv hgal hps1
      hconf hgaia hcand
    constructor
    · intro happ
      by_contra hnot
      have hacc := apply_accepts cfg env latest rest dp fw el md nb rbv ssd rav decv d1 s1
        d2 s2 d3 s3 hfw hel hmd hnb hd1 hs1 hd2 hs2 hd3 hs3 hdp hra hdec hrb hss hcount ⟨ht1, ht2⟩ hsign hrbv hdrb hfwv helv hmdv
        hnot hgal hps1 hconf hgaia hcand
      rw [happ] at hacc
      simp at hacc
    · intro hcond
      exact apply_sso_reject cfg env latest rest dp fw el md nb rbv ssd rav decv d1 s1 d2
        s2 d3 s3 hfw hel hmd hnb hd1 hs1 hd2 hs2 hd3 hs3 hdp hra hdec hrb hss hcount ⟨ht1, ht2⟩ hsign hrbv hdrb hfwv helv hmdv
        hcond
  · intro hneg t
    have hn : ∀ u : ℚ, ¬ (0 ≤ ssd ∧ ssd < u) := fun u hand => absurd hand.1 (not_le.mpr hneg)
    have e1 : ∀ d, drbGateCheck {cfg with min_ssdistnr := t} d = drbGateCheck cfg d :=
      fun _ => rfl
    have e2 : ∀ a b, is_star_in_PS1 {cfg with min_ssdistnr := t} a b =
        is_star_in_PS1 cfg a b := fun _ _ => rfl
    have e3 : ∀ a b c x y z, is_confused_in_PS1 {cfg with min_ssdistnr := t} a b c x y z =
        is_confused_in_PS1 cfg a b c x y z := fun _ _ _ _ _ _ => rfl
    have e4 : ∀ a b, is_star_in_gaia {cfg with min_ssdistnr := t} env a b =
        is_star_in_gaia cfg env a b := fun _ _ => rfl
    dsimp only [apply]
    simp only [hss, FieldVal.get, e1, e2, e3, e4]
    simp only [if_neg (hn t), if_neg (hn cfg.min_ssdistnr)]

/-- C5 witness: `ssdistnr = 0` under threshold `20` is rejected, and with
`ssdistnr = -999` the decision is unchanged when the threshold is replaced
by `77`. -/
theorem c5_sso_gate_witness :
    apply cfg0 env0 ⟨[{det1 with ssdistnr := .val 0}, det0]⟩ = .ok none ∧
    apply {cfg0 with min_ssdistnr := 77} env0 ⟨[det1, det0]⟩ =
      apply cfg0 env0 ⟨[det1, det0]⟩ := by
  constructor
  · exact (((c5_sso_gate cfg0 env0 {det1 with ssdistnr := .val 0} [det0] 0 rfl).1
      "t" 2 1.2 0.1 0 0.6 150 30 10 0.2 20 0.1 30 0.9
      rfl rfl rfl rfl rfl rfl rfl rfl rfl rfl rfl rfl rfl rfl
      (by norm_num [cfg0])
      (by norm_num [detTspan, listMax, listMin, jdList, det0, det1, cfg0])
      (by norm_num [detTspan, listMax, listMin, jdList, det0, det1, cfg0])
      (by decide) (by norm_num [cfg0])
      (by norm_num [drbGateCheck, cfg0, det0, det1])
      (by norm_num [cfg0]) (by norm_num [cfg0]) (by norm_num [cfg0, abs])
      (by norm_num [get_galactic_latitude, env0, cfg0, abs])
      (by norm_num [is_star_in_PS1, cfg0])
      (by norm_num [is_confused_in_PS1, cfg0, abs])
      (by norm_num [is_star_in_gaia, env0, cfg0])
      (by simp [det0, det1])).2
      (by norm_num [cfg0]))
  · exact (c5_sso_gate cfg0 env0 det1 [det0] (-999) rfl).2 (by norm_num) 77

/-- C7: with the default `min_drb = 0`, the deep-real-bogus gate is disabled:
the decision is identical whatever the latest detection's `drb` entry holds —
absent, null, zero, or any value — so the field is never read. -/
theorem c7_drb_disabled (cfg : Config) (env : Env) (latest : Detection) (rest : List Detection)
    (h : cfg.min_drb = 0) (x y : FieldVal ℚ) :
    apply cfg env ⟨{latest with drb := x} :: rest⟩ =
      apply cfg env ⟨{latest with drb := y} :: rest⟩ := by
  have hx : drbGateCheck cfg x = .ok false := by simp [drbGateCheck, h]
  have hy : drbGateCheck cfg y = .ok false := by simp [drbGateCheck, h]
  have n1 : ((({latest with drb := x}) :: rest).length : ℤ) =
      ((({latest with drb := y}) :: rest).length : ℤ) := rfl
  have l1 : detTspan {latest with drb := x} rest = detTspan latest rest := rfl
  have l2 : detTspan {latest with drb := y} rest = detTspan latest rest := rfl
  have k1 : alert_has_keys {latest with drb := x} = alert_has_keys latest := rfl
  have k2 : alert_has_keys {latest with drb := y} = alert_has_keys latest := rfl
  dsimp only [apply]
  simp only [hx, hy, n1, l1, l2, k1, k2]

/-- C7 witness: with `cfg0` (`min_drb = 0`) an absent `drb` and `drb = 0`
produce the same decision. -/
theorem c7_drb_disabled_witness :
    apply cfg0 env0 ⟨[{det1 with drb := .absent}, det0]⟩ =
      apply cfg0 env0 ⟨[{det1 with drb := .val 0}, det0]⟩ :=
  c7_drb_disabled cfg0 env0 det1 [det0] rfl .absent (.val 0)

/-- C8: `apply` is deterministic — it is a pure function of the configuration,
the collaborator environment and the alert, so two evaluations of the same
inputs give the same decision. -/
theorem c8_deterministic (cfg : Config) (env : Env) (a : Alert)
    (r1 r2 : Except PyErr (Option (List String)))
    (h1 : apply cfg env a = r1) (h2 : apply cfg env a = r2) : r1 = r2 := by
  rw [← h1, ← h2]

/-- C8 witness: two evaluations of the fixture alert against the one-star
catalog agree. -/
theorem c8_deterministic_witness :
    (Except.ok none : Except PyErr (Option (List String))) = .ok none := by
  have h : apply cfg0 env1 alert0 = .ok none := by
    norm_num [apply, cfg0, env0, env1, alert0, det0, det1, alert_has_keys, FieldVal.present,
      FieldVal.get, detTspan, listMax, listMin, jdList, drbGateCheck, is_star_in_PS1,
      is_confused_in_PS1, is_star_in_gaia, get_galactic_latitude, gaiaProx, gaiaClean,
      flagPMRA, flagPMDec, flagPlx, gsrc0]
  exact c8_deterministic cfg0 env1 alert0 _ _ h h

/-- C9: the bad-pixel count does not interfere with the decision: two alerts
differing only in the latest detection's (present, non-null) `nbad` value get
the same decision, and the configured `MAX_NBAD` threshold never changes the
decision either — no gate compares `nbad` against it. -/
theorem c9_nbad_noninterference (cfg : Config) (env : Env) (latest : Detection)
    (rest : List Detection) (x y : ℚ) (m1 m2 : ℤ) :
    apply cfg env ⟨{latest with nbad := .val x} :: rest⟩ =
      apply cfg env ⟨{latest with nbad := .val y} :: rest⟩ ∧
    apply {cfg with max_nbad := m1} env ⟨latest :: rest⟩ =
      apply {cfg with max_nbad := m2} env ⟨latest :: rest⟩ :=
  ⟨rfl, rfl⟩

/-- C10 counterexample: an alert whose latest detection passes the
field-completeness gate and has no `drb` entry, under a configuration with
`min_drb > 0`, is rejected normally (at the real-bogus gate) — `apply`
returns `None` and raises nothing, so the claim's unconditional `KeyError`
is wrong. -/
theorem c10_counterexample :
    ({cfg0 with min_drb := 0.5}).min_drb > 0 ∧
    alert_has_keys {det1 with drb := .absent, rb := .val 0.1} = true ∧
    ({det1 with drb := .absent, rb := .val 0.1}).drb = .absent ∧
    apply {cfg0 with min_drb := 0.5} env0
      ⟨[{det1 with drb := .absent, rb := .val 0.1}, det0]⟩ = .ok none := by
  refine ⟨by norm_num [cfg0], rfl, rfl, ?_⟩
  norm_num [apply, cfg0, env0, det0, det1, alert_has_keys, FieldVal.present,
    FieldVal.get, detTspan, listMax, listMin, jdList, drbGateCheck]

/-- C10 (amended): when `min_drb > 0` and evaluation reaches the
deep-real-bogus gate (count, span, completeness, sign and real-bogus gates
all pass) with no `drb` entry on the latest detection, `apply` raises
`KeyError('drb')` instead of returning a decision. -/
theorem c10_drb_keyerror (cfg : Config) (env : Env) (latest : Detection) (rest : List Detection)
    (hcount : ¬ ((latest :: rest).length : ℤ) < cfg.min_ndet)
    (hspan : cfg.min_tspan < detTspan latest rest ∧ detTspan latest rest < cfg.max_tspan)
    (hkeys : alert_has_keys latest = true)
    (dp : String) (hdp : latest.isdiffpos = .val dp) (hsign : ¬ (dp = "f" ∨ dp = "0"))
    (rbv : ℚ) (hrb : latest.rb = .val rbv) (hrbv : ¬ rbv < cfg.min_rb)
    (hpos : cfg.min_drb > 0) (hdrb : latest.drb = .absent) :
    apply cfg env ⟨latest :: rest⟩ = .error (.keyError "drb") := by
  have hchk : drbGateCheck cfg latest.drb = .error (.keyError "drb") := by
    simp [drbGateCheck, hdrb, hpos, FieldVal.get, Except.map]
  dsimp only [apply]
  simp only [hdp, hrb, FieldVal.get, hchk]
  simp only [if_neg hcount, if_neg (not_not_intro hspan), if_neg (not_not_intro hkeys),
    if_neg hsign, if_neg hrbv]

/-- C10 (amended) witness: the fixture alert with `drb` removed and
`min_drb = 0.5` raises `KeyError('drb')`. -/
theorem c10_drb_keyerror_witness :
    apply {cfg0 with min_drb := 0.5} env0 ⟨[{det1 with drb := .absent}, det0]⟩ =
      .error (.keyError "drb") := by
  exact c10_drb_keyerror {cfg0 with min_drb := 0.5} env0 {det1 with drb := .absent} [det0]
    (by norm_num [cfg0])
    (by norm_num [detTspan, listMax, listMin, jdList, det0, det1, cfg0])
    rfl "t" rfl (by decide) 0.6 rfl (by norm_num [cfg0]) (by norm_num [cfg0]) rfl

end DecentFilter